import Mathlib

/-!
Formal model of the client-side logic of the pleno-anonymize website:
the auth session gate (`useAuth`), the OAuth callback resolver
(`CallbackPage`), and the docs navigator (`DocsPage` + `Sidebar`).

The embedding follows the TypeScript source:
  * `useAuth` (src/website/src/auth/useAuth.ts) reads the OAuth context
    and either throws when no provider is mounted or derives the exposed
    auth state, with `isAuthenticated := !!context.token` (JavaScript
    truthiness of the token string).
  * `CallbackPage` (src/website/src/pages/CallbackPage.tsx) runs an
    effect on each observed auth-state update; the effect's navigate
    calls are modelled as the list of navigations it performs.
  * `DocsPage`/`Sidebar` hold `activeSection`, `expandedSections` (a
    JavaScript `Set`, modelled as a `Finset String`) and
    `isMobileMenuOpen`; the sidebar click handlers are modelled by
    `selectSection`, the deferred scroll timeout by
    `deferredScrollEffect`, and the content `switch` by `renderContent`.
Presentational data (titles, icons, markup) is not part of the model.
-/

namespace PlenoAnonymize

/-- JavaScript truthiness of a nullable string: `null`/`undefined` and
the empty string are falsy, every other string is truthy. -/
def jsTruthyStr : Option String → Bool
  | none => false
  | some s => !s.isEmpty

/-- The fields of the third-party OAuth context that `useAuth` reads
(`token`, `loginInProgress`, `error`); the login/logout callbacks are
passed through untouched by the source and are omitted. -/
structure AuthContextData where
  token : Option String
  loginInProgress : Bool
  error : Option String
deriving DecidableEq

/-- The auth state object returned by `useAuth`. -/
structure AuthState where
  token : Option String
  isAuthenticated : Bool
  isLoading : Bool
  error : Option String
deriving DecidableEq

/-- A thrown JavaScript `Error`, identified by its message. -/
structure JsError where
  message : String
deriving DecidableEq

/-- The state `useAuth` derives from a mounted context:
`isAuthenticated` is `!!context.token`, `isLoading` is
`context.loginInProgress`, `token` and `error` pass through. -/
def authStateOf (ctx : AuthContextData) : AuthState :=
  { token := ctx.token
    isAuthenticated := jsTruthyStr ctx.token
    isLoading := ctx.loginInProgress
    error := ctx.error }

/-- `useAuth` from src/website/src/auth/useAuth.ts: with no context
(`useContext` returned null, i.e. outside the provider subtree) it
throws; otherwise it returns the derived auth state. -/
def useAuth : Option AuthContextData → Except JsError AuthState
  | none => Except.error { message := "useAuth must be used within AuthProvider" }
  | some ctx => Except.ok (authStateOf ctx)

/-- One navigate call: target route and whether history is replaced. -/
structure Nav where
  route : String
  replace : Bool
deriving DecidableEq

/-- What the callback page renders: the error block when `error` is
truthy, otherwise the spinner. -/
inductive CallbackView
  | errorView (message : String)
  | spinner
deriving DecidableEq

/-- The navigations performed by one run of the `CallbackPage` effect
(src/website/src/pages/CallbackPage.tsx lines 10-18):
`if (!isLoading) { if (isAuthenticated) navigate('/docs', {replace:true});
else if (error) navigate('/', {replace:true}); }`. -/
def callbackEffect (s : AuthState) : List Nav :=
  if !s.isLoading then
    if s.isAuthenticated then [{ route := "/docs", replace := true }]
    else if jsTruthyStr s.error then [{ route := "/", replace := true }]
    else []
  else []

/-- The view rendered by `CallbackPage`: `error ? <error block> :
<spinner>` (a truthy check on the error string). -/
def callbackRender (s : AuthState) : CallbackView :=
  if jsTruthyStr s.error then CallbackView.errorView (s.error.getD "")
  else CallbackView.spinner

/-- A documentation section as declared in `docSections` of DocsPage:
its id and, when present, the ids of its subsections. -/
structure DocSection where
  id : String
  subsections : Option (List String)
deriving DecidableEq

/-- The `docSections` array of DocsPage (ids only; titles and icons are
presentational). -/
def docSections : List DocSection :=
  [ { id := "overview", subsections := none }
  , { id := "getting-started", subsections := none }
  , { id := "api", subsections := some ["analyze", "redact", "openai-proxy"] }
  , { id := "architecture", subsections := some ["presidio", "spacy-llm", "tech-stack"] }
  , { id := "privacy", subsections := none } ]

/-- The `subsectionIds` set of DocsPage. -/
def subsectionIds : List String :=
  ["analyze", "redact", "openai-proxy", "presidio", "spacy-llm", "tech-stack"]

/-- The docs navigator state: `activeSection` and `isMobileMenuOpen`
live in `DocsPage`, `expandedSections` in `Sidebar`. -/
structure NavState where
  activeSection : String
  expandedSections : Finset String
  isMobileMenuOpen : Bool

/-- The state on navigator mount: `useState('overview')`,
`useState(new Set(['api', 'architecture']))`, `useState(false)`. -/
def initialNavState : NavState :=
  { activeSection := "overview"
    expandedSections := {"api", "architecture"}
    isMobileMenuOpen := false }

/-- `toggleSection` of the Sidebar: flip membership of `id` in the
expanded-sections set. -/
def toggleSection (id : String) (expanded : Finset String) : Finset String :=
  if id ∈ expanded then expanded.erase id else insert id expanded

/-- A sidebar click on the entry carrying `id`. When `id` is a
top-level section its button runs
`if (section.subsections) toggleSection(section.id); onSectionChange(section.id)`;
a subsection button runs `onSectionChange(sub.id)` only. In both cases
`onSectionChange` is `setActiveSection(id); setIsMobileMenuOpen(false)`. -/
def selectSection (st : NavState) (id : String) : NavState :=
  match docSections.find? (fun sec => sec.id == id) with
  | some sec =>
      { activeSection := id
        expandedSections :=
          if sec.subsections.isSome then toggleSection id st.expandedSections
          else st.expandedSections
        isMobileMenuOpen := false }
  | none =>
      { activeSection := id
        expandedSections := st.expandedSections
        isMobileMenuOpen := false }

/-- The deferred scroll attempt of DocsPage (the timeout body guarded by
`subsectionIds.has(activeSection)`): it looks the anchor up in the
document (`domIds` is the set of element ids present when it runs) and
scrolls to it only when found. It returns the unchanged navigator state
together with the scrolled-to anchor, if any. -/
def deferredScrollEffect (domIds : List String) (st : NavState) :
    NavState × Option String :=
  if st.activeSection ∈ subsectionIds then
    (st, if st.activeSection ∈ domIds then some st.activeSection else none)
  else (st, none)

/-- The five content panes DocsPage can render. -/
inductive ContentPane
  | overview
  | gettingStarted
  | api
  | architecture
  | privacy
deriving DecidableEq

/-- `renderContent` of DocsPage: the `switch (activeSection)` mapping
ids to panes, with the `default` branch rendering the overview pane. -/
def renderContent (active : String) : ContentPane :=
  if active = "overview" then ContentPane.overview
  else if active = "getting-started" then ContentPane.gettingStarted
  else if active = "api" ∨ active = "analyze" ∨ active = "redact" ∨
      active = "openai-proxy" then ContentPane.api
  else if active = "architecture" ∨ active = "presidio" ∨
      active = "spacy-llm" ∨ active = "tech-stack" then ContentPane.architecture
  else if active = "privacy" then ContentPane.privacy
  else ContentPane.overview

/-- The known identifier universe: top-level section ids together with
subsection ids. -/
def knownSectionIds : List String :=
  ["overview", "getting-started", "api", "architecture", "privacy"] ++ subsectionIds

/-- Toggling flips membership of the toggled id. -/
theorem toggleSection_mem (id : String) (s : Finset String) :
    id ∈ toggleSection id s ↔ id ∉ s := by
  by_cases h : id ∈ s <;> simp [toggleSection, h]

/-- Toggling twice restores the set. -/
theorem toggleSection_toggleSection (id : String) (s : Finset String) :
    toggleSection id (toggleSection id s) = s := by
  by_cases h : id ∈ s
  · simp [toggleSection, h, Finset.insert_erase]
  · simp [toggleSection, h, Finset.erase_insert]

/-- Clicking the `api` entry toggles it and selects it. -/
theorem selectSection_api (st : NavState) :
    selectSection st "api" =
      { activeSection := "api"
        expandedSections := toggleSection "api" st.expandedSections
        isMobileMenuOpen := false } := rfl

/-- Clicking the `architecture` entry toggles it and selects it. -/
theorem selectSection_architecture (st : NavState) :
    selectSection st "architecture" =
      { activeSection := "architecture"
        expandedSections := toggleSection "architecture" st.expandedSections
        isMobileMenuOpen := false } := rfl

/-- Claim C1: on every observed auth-state update with `isLoading`
false and `isAuthenticated` true, the callback effect navigates to
`/docs` exactly once, with history replacement. -/
theorem callback_authenticated_redirect (s : AuthState)
    (hl : s.isLoading = false) (ha : s.isAuthenticated = true) :
    callbackEffect s = [{ route := "/docs", replace := true }] := by
  simp [callbackEffect, hl, ha]

/-- Witness for C1: the state reached after the transition
`{isLoading:true} -> {isLoading:false, token:"abc"}`. -/
theorem callback_authenticated_redirect_witness :
    callbackEffect
        { token := some "abc", isAuthenticated := true, isLoading := false,
          error := none } =
      [{ route := "/docs", replace := true }] :=
  callback_authenticated_redirect
    { token := some "abc", isAuthenticated := true, isLoading := false,
      error := none } rfl rfl

/-- Counterexample to C2 as stated: an auth state with `isLoading`
false, `isAuthenticated` false and an error present — the empty string,
which is a present string value but falsy in JavaScript — is reachable
through `useAuth`, yet the callback effect performs no navigation. -/
theorem callback_error_redirect_cex :
    useAuth (some { token := none, loginInProgress := false, error := some "" }) =
        Except.ok
          { token := none, isAuthenticated := false, isLoading := false,
            error := some "" } ∧
      Option.isSome (some "" : Option String) = true ∧
      callbackEffect
          { token := none, isAuthenticated := false, isLoading := false,
            error := some "" } =
        [] :=
  ⟨rfl, rfl, rfl⟩

/-- Claim C2 (amended): on every observed auth-state update with
`isLoading` false, `isAuthenticated` false and a present, non-empty
error, the callback effect navigates to `/` exactly once, with history
replacement. -/
theorem callback_error_redirect (s : AuthState)
    (hl : s.isLoading = false) (ha : s.isAuthenticated = false)
    (he : jsTruthyStr s.error = true) :
    callbackEffect s = [{ route := "/", replace := true }] := by
  simp [callbackEffect, hl, ha, he]

/-- Witness for amended C2: the state reached after the transition
`{isLoading:true} -> {isLoading:false, error:"denied"}`. -/
theorem callback_error_redirect_witness :
    callbackEffect
        { token := none, isAuthenticated := false, isLoading := false,
          error := some "denied" } =
      [{ route := "/", replace := true }] :=
  callback_error_redirect
    { token := none, isAuthenticated := false, isLoading := false,
      error := some "denied" } rfl rfl rfl

/-- Claim C3: the callback effect never navigates while loading; any
navigation it performs happens with `isLoading` false and either
`isAuthenticated` true or an error present; and in the settled
ambiguous state (`isLoading` false, no token, no error, as exposed by
`useAuth`) it performs no navigation and the page still renders (the
spinner view). -/
theorem callback_nav_guard (s : AuthState) (ctx : AuthContextData) :
    (s.isLoading = true → callbackEffect s = []) ∧
      (callbackEffect s ≠ [] →
        s.isLoading = false ∧ (s.isAuthenticated = true ∨ s.error.isSome = true)) ∧
      (ctx.loginInProgress = false → ctx.token = none → ctx.error = none →
        callbackEffect (authStateOf ctx) = [] ∧
          callbackRender (authStateOf ctx) = CallbackView.spinner) := by
  refine ⟨fun hl => by simp [callbackEffect, hl], fun hne => ?_, ?_⟩
  · by_cases hl : s.isLoading
    · exact absurd (by simp [callbackEffect, hl]) hne
    · refine ⟨by simpa using hl, ?_⟩
      by_cases ha : s.isAuthenticated
      · exact Or.inl ha
      · by_cases he : jsTruthyStr s.error
        · refine Or.inr ?_
          cases herr : s.error with
          | none => rw [herr] at he; simp [jsTruthyStr] at he
          | some e => simp
        · exact absurd (by simp [callbackEffect, hl, ha, he]) hne
  · intro hp ht he
    simp [callbackEffect, callbackRender, authStateOf, jsTruthyStr, hp, ht, he]

/-- Witness for C3: no navigation while loading, no navigation and the
spinner in the settled ambiguous state, and the `/docs` navigation only
fires with `isLoading` false. -/
theorem callback_nav_guard_witness :
    callbackEffect
        { token := none, isAuthenticated := false, isLoading := true,
          error := none } =
      [] ∧
      callbackEffect
          (authStateOf { token := none, loginInProgress := false, error := none }) =
        [] ∧
      callbackRender
          (authStateOf { token := none, loginInProgress := false, error := none }) =
        CallbackView.spinner ∧
      ({ token := some "abc", isAuthenticated := true, isLoading := false,
          error := none } : AuthState).isLoading = false :=
  ⟨(callback_nav_guard
      { token := none, isAuthenticated := false, isLoading := true, error := none }
      { token := none, loginInProgress := false, error := none }).1 rfl,
    ((callback_nav_guard
        { token := none, isAuthenticated := false, isLoading := true, error := none }
        { token := none, loginInProgress := false, error := none }).2.2
      rfl rfl rfl).1,
    ((callback_nav_guard
        { token := none, isAuthenticated := false, isLoading := true, error := none }
        { token := none, loginInProgress := false, error := none }).2.2
      rfl rfl rfl).2,
    ((callback_nav_guard
        { token := some "abc", isAuthenticated := true, isLoading := false,
          error := none }
        { token := none, loginInProgress := false, error := none }).2.1
      (by decide)).1⟩

/-- Counterexample to C6 as stated: for the context whose token is the
empty string the token is present (`isSome`), yet `useAuth` reports
`isAuthenticated` false, because the source computes `!!context.token`
and the empty string is falsy in JavaScript. -/
theorem useAuth_isAuthenticated_cex :
    useAuth (some { token := some "", loginInProgress := false, error := none }) =
        Except.ok
          { token := some "", isAuthenticated := false, isLoading := false,
            error := none } ∧
      Option.isSome (some "" : Option String) = true ∧
      (false : Bool) ≠ true :=
  ⟨rfl, rfl, by decide⟩

/-- Claim C6 (amended): for every auth context, `useAuth` succeeds with
the derived state, whose `isAuthenticated` field is true iff the token
is present and non-empty. -/
theorem useAuth_isAuthenticated_iff (ctx : AuthContextData) :
    useAuth (some ctx) = Except.ok (authStateOf ctx) ∧
      ((authStateOf ctx).isAuthenticated = true ↔
        ∃ t, ctx.token = some t ∧ t ≠ "") := by
  refine ⟨rfl, ?_⟩
  cases ht : ctx.token with
  | none => simp [authStateOf, jsTruthyStr, ht]
  | some t =>
      by_cases he : t = ""
      · subst he
        simp [authStateOf, jsTruthyStr, ht, String.isEmpty_iff]
      · have hE : t.isEmpty = false :=
          Bool.eq_false_iff.mpr (fun h => he ((String.isEmpty_iff t).mp h))
        simp [authStateOf, jsTruthyStr, ht, hE, he]

/-- Claim C7: calling `useAuth` with no mounted provider context fails
deterministically with the configuration error, never returning a
state. -/
theorem useAuth_outside_provider :
    useAuth none =
      Except.error { message := "useAuth must be used within AuthProvider" } :=
  rfl

/-- Claim C4: for every subsection id and every navigator state,
selecting the subsection makes it active, leaves the expanded-sections
set untouched, and (as a side effect of any sidebar selection) closes
the mobile menu. -/
theorem select_subsection_frame (st : NavState) (id : String)
    (h : id ∈ subsectionIds) :
    (selectSection st id).activeSection = id ∧
      (selectSection st id).expandedSections = st.expandedSections := by
  fin_cases h <;> exact ⟨rfl, rfl⟩

/-- Witness for C4: selecting the `analyze` subsection from the initial
state. -/
theorem select_subsection_frame_witness :
    (selectSection initialNavState "analyze").activeSection = "analyze" ∧
      (selectSection initialNavState "analyze").expandedSections =
        initialNavState.expandedSections :=
  select_subsection_frame initialNavState "analyze" (by decide)

/-- Claim C5: for each top-level id with child subsections (`api`,
`architecture`) and every starting state, one selection flips its
membership in the expanded-sections set, and a second selection flips
it back, restoring the original set. -/
theorem select_toplevel_toggle_twice (st : NavState) (id : String)
    (h : id ∈ (["api", "architecture"] : List String)) :
    (id ∈ (selectSection st id).expandedSections ↔
        id ∉ st.expandedSections) ∧
      (selectSection (selectSection st id) id).expandedSections =
        st.expandedSections := by
  fin_cases h
  · constructor
    · rw [selectSection_api]
      exact toggleSection_mem _ _
    · rw [selectSection_api, selectSection_api]
      exact toggleSection_toggleSection _ _
  · constructor
    · rw [selectSection_architecture]
      exact toggleSection_mem _ _
    · rw [selectSection_architecture, selectSection_architecture]
      exact toggleSection_toggleSection _ _

/-- Witness for C5: double-clicking `api` starting from the initial
state. -/
theorem select_toplevel_toggle_twice_witness :
    ("api" ∈ (selectSection initialNavState "api").expandedSections ↔
        "api" ∉ initialNavState.expandedSections) ∧
      (selectSection (selectSection initialNavState "api") "api").expandedSections =
        initialNavState.expandedSections :=
  select_toplevel_toggle_twice initialNavState "api" (by decide)

/-- Claim C8: on navigator mount, `overview` is the active section,
exactly the two sections `api` and `architecture` are pre-expanded, and
the mobile menu is closed. -/
theorem initial_nav_state :
    initialNavState.activeSection = "overview" ∧
      initialNavState.expandedSections = {"api", "architecture"} ∧
      initialNavState.expandedSections.card = 2 ∧
      initialNavState.isMobileMenuOpen = false := by
  refine ⟨rfl, rfl, ?_, rfl⟩
  decide

/-- Claim C9: whenever the deferred scroll attempt runs for a subsection
whose anchor element is absent from the document, it is a no-op: the
navigator state is returned unchanged and no scroll is performed (and,
the function being total, no error is raised). -/
theorem deferred_scroll_absent_noop (domIds : List String) (st : NavState)
    (h1 : st.activeSection ∈ subsectionIds) (h2 : st.activeSection ∉ domIds) :
    deferredScrollEffect domIds st = (st, none) := by
  simp [deferredScrollEffect, h1, h2]

/-- Witness for C9: the `presidio` anchor is absent from an empty
document. -/
theorem deferred_scroll_absent_noop_witness :
    deferredScrollEffect []
        { activeSection := "presidio", expandedSections := {"api", "architecture"},
          isMobileMenuOpen := false } =
      ({ activeSection := "presidio", expandedSections := {"api", "architecture"},
          isMobileMenuOpen := false }, none) :=
  deferred_scroll_absent_noop []
    { activeSection := "presidio", expandedSections := {"api", "architecture"},
      isMobileMenuOpen := false } (by decide) (by decide)

/-- Claim C10: content resolution is total — for every identifier
outside the known universe of top-level and subsection ids, the
`default` branch renders the overview pane. -/
theorem renderContent_default_overview (id : String)
    (h : id ∉ knownSectionIds) :
    renderContent id = ContentPane.overview := by
  simp only [knownSectionIds, subsectionIds, List.mem_append, List.mem_cons,
    List.not_mem_nil, or_false, not_or] at h
  obtain ⟨⟨h1, h2, h3, h4, h5⟩, h6, h7, h8, h9, h10, h11⟩ := h
  simp [renderContent, h1, h2, h3, h4, h5, h6, h7, h8, h9, h10, h11]

/-- Witness for C10: an identifier outside the known universe. -/
theorem renderContent_default_overview_witness :
    renderContent "bogus" = ContentPane.overview :=
  renderContent_default_overview "bogus" (by decide)

end PlenoAnonymize
